import Mathlib

/-!
Shallow embedding of the pull-request client layer of `mcp-azure-devops`
(`src/mcp_azure_devops/features/pull_requests/`): branch-ref normalization,
request construction, and the read-then-write composite operations, together
with the configuration/credential resolution path.  Network effects are made
explicit: every operation returns its result paired with the ordered list of
remote calls it issued.
-/

namespace McpAzureDevOps

/-- Character-level model of Python `str.startswith`, as used at
`tools/create.py` lines 45-46 and `tools/read.py` line 84. -/
def strStartsWith (s pre : String) : Bool :=
  pre.toList.isPrefixOf s.toList

/-- `tools/create.py` lines 44-46: a branch name is prefixed with
`refs/heads/` unless it already starts with `refs/`. -/
def normalizeRef (branch : String) : String :=
  if strStartsWith branch "refs/" then branch else "refs/heads/" ++ branch

/-- `common.py` line 89 (`AzureDevOpsClient.create_pull_request`):
the source ref is built by unconditional prefixing. -/
def clientSourceRefName (source_branch : String) : String :=
  "refs/heads/" ++ source_branch

/-- `common.py` line 90 (`AzureDevOpsClient.create_pull_request`):
the target ref is built by unconditional prefixing. -/
def clientTargetRefName (target_branch : String) : String :=
  "refs/heads/" ++ target_branch

/-- `common.py` line 182 (`AzureDevOpsClient.get_pull_requests`): the
target-branch filter of listing is built by unconditional prefixing. -/
def targetRefFilter (target_branch : String) : String :=
  "refs/heads/" ++ target_branch

/-- `tools/read.py` line 84 (`_list_pull_requests_impl`): the target-branch
filter in the reorganized tools is conditional, like `normalizeRef`. -/
def readTargetRefFilter (target_branch : String) : String :=
  if strStartsWith target_branch "refs/" then target_branch
  else "refs/heads/" ++ target_branch

/-- Completion options dict set at `common.py` lines 335-338. -/
structure CompletionOptions where
  merge_strategy : String
  delete_source_branch : Bool
  deriving DecidableEq, Repr

/-- The `GitPullRequest` object as constructed and mutated by this code base.
The optional fields model the ad hoc attributes Python `setattr`/assignment
can add to a fetched SDK object (`completion_options` at `common.py` 335,
`merge_strategy` / `delete_source_branch` / `merge_commit_message` at
`tools/update.py` 186-193); on a freshly built or freshly fetched object they
are absent (`none`). -/
structure GitPullRequest where
  title : String
  description : String
  status : String
  source_ref_name : String
  target_ref_name : String
  reviewers : List String := []
  completion_options : Option CompletionOptions := none
  merge_strategy : Option String := none
  delete_source_branch : Option Bool := none
  merge_commit_message : Option String := none
  deriving DecidableEq, Repr

/-- An identity returned by the identity service (`get_self`). -/
structure Identity where
  id : String
  display_name : String
  deriving DecidableEq, Repr

/-- One remote (network) call issued by the client layer.  Each constructor
records the request payload put on the wire. -/
inductive Call where
  | getPullRequest (pull_request_id : Nat)
  | updatePullRequest (pull_request_id : Nat) (payload : GitPullRequest)
  | createPullRequest (payload : GitPullRequest)
  | identityGetSelf
  | createPullRequestReviewer (reviewer_id : String) (vote : Int)
  | getWorkItems (ids : List Int)
  | createPullRequestWorkItems (work_item_ids : List Int)
  deriving DecidableEq, Repr

/-- Responses of the remote service, one entry per call kind the embedded
operations can issue.  An `Except.error` models the SDK raising an
exception for that call. -/
structure Remote where
  getPullRequest : Nat → Except String GitPullRequest
  updatePullRequest : Nat → GitPullRequest → Except String GitPullRequest
  createPullRequest : GitPullRequest → Except String GitPullRequest
  getSelf : Except String Identity
  createReviewer : String → Int → Except String Identity
  getWorkItems : List Int → Except String (List Int)
  createPullRequestWorkItems : List Int → Except String Unit

/-- `tools/create.py` lines 44-61 (`_create_pull_request_impl`): the
`GitPullRequest` body built for creation, with conditional ref
normalization. -/
def buildCreatePullRequest (title source_branch target_branch description : String)
    (reviewers : List String) : GitPullRequest :=
  { title := title
    description := description
    status := "active"
    source_ref_name := normalizeRef source_branch
    target_ref_name := normalizeRef target_branch
    reviewers := reviewers }

/-- `tools/create.py` `_create_pull_request_impl`: build the body, then issue
the single create call.  Response formatting (`format_pull_request`) is
presentation-only and elided; the success value is the created PR. -/
def create_pull_request_impl (remote : Remote)
    (title source_branch target_branch description : String)
    (reviewers : List String) :
    Except String GitPullRequest × List Call :=
  let body := buildCreatePullRequest title source_branch target_branch description reviewers
  match remote.createPullRequest body with
  | .error e => (.error ("Failed to create pull request: " ++ e), [.createPullRequest body])
  | .ok pr => (.ok pr, [.createPullRequest body])

/-- `common.py` lines 86-109 (`AzureDevOpsClient.create_pull_request`): the
legacy client builds the body with unconditional `refs/heads/` prefixing. -/
def client_create_pull_request (remote : Remote)
    (title description source_branch target_branch : String)
    (reviewers : List String) :
    Except String GitPullRequest × List Call :=
  let body : GitPullRequest :=
    { title := title
      description := description
      status := "active"
      source_ref_name := clientSourceRefName source_branch
      target_ref_name := clientTargetRefName target_branch
      reviewers := reviewers }
  match remote.createPullRequest body with
  | .error e => (.error ("Failed to create pull request: " ++ e), [.createPullRequest body])
  | .ok pr => (.ok pr, [.createPullRequest body])

/-- `tools/update.py` lines 50-54: the status validation performed by
`_update_pull_request_impl`.  Python `if status and status not in (...)`:
an empty string is falsy and skips the check. -/
def statusIsInvalid (status : String) : Bool :=
  status ≠ "" && status ≠ "active" && status ≠ "abandoned" && status ≠ "completed"

/-- `tools/update.py` lines 56-62: apply the optional new field values to the
fetched pull request. -/
def applyUpdateFields (pr : GitPullRequest)
    (title description status : Option String) : GitPullRequest :=
  let pr := match title with | some t => { pr with title := t } | none => pr
  let pr := match description with | some d => { pr with description := d } | none => pr
  match status with | some s => { pr with status := s } | none => pr

/-- `tools/update.py` lines 18-74 (`_update_pull_request_impl`): read the PR,
validate the requested status, apply the new fields, write the PR back.
Note the read is issued before the status validation. -/
def update_pull_request_impl (remote : Remote) (pull_request_id : Nat)
    (title description status : Option String) :
    Except String GitPullRequest × List Call :=
  match remote.getPullRequest pull_request_id with
  | .error e =>
      (.error ("Failed to update pull request: " ++ e), [.getPullRequest pull_request_id])
  | .ok pr =>
      if statusIsInvalid (status.getD "") then
        (.error ("Failed to update pull request: Invalid status: " ++ status.getD ""
            ++ ". Must be active, abandoned, or completed."),
          [.getPullRequest pull_request_id])
      else
        let updated := applyUpdateFields pr title description status
        match remote.updatePullRequest pull_request_id updated with
        | .error e =>
            (.error ("Failed to update pull request: " ++ e),
              [.getPullRequest pull_request_id, .updatePullRequest pull_request_id updated])
        | .ok r =>
            (.ok r,
              [.getPullRequest pull_request_id, .updatePullRequest pull_request_id updated])

/-- `tools/update.py` line 108: the allowed vote values. -/
def validVotes : List Int := [-10, -5, 0, 5, 10]

/-- `tools/update.py` lines 77-140 (`_vote_on_pull_request_impl`): resolve the
connection, fetch the caller identity via `get_self` (a network call), then
validate the vote value, then issue the reviewer update.  The human-readable
message formatting is elided; the success value is the returned reviewer. -/
def vote_on_pull_request_impl (connectionOk : Bool) (remote : Remote)
    (pull_request_id : Nat) (vote : Int) :
    Except String Identity × List Call :=
  if connectionOk then
    match remote.getSelf with
    | .error e => (.error ("Failed to vote on pull request: " ++ e), [.identityGetSelf])
    | .ok self_identity =>
        if vote ∈ validVotes then
          match remote.createReviewer self_identity.id vote with
          | .error e =>
              (.error ("Failed to vote on pull request: " ++ e),
                [.identityGetSelf, .createPullRequestReviewer self_identity.id vote])
          | .ok r =>
              (.ok r,
                [.identityGetSelf, .createPullRequestReviewer self_identity.id vote])
        else
          (.error ("Failed to vote on pull request: Invalid vote value: "
              ++ toString vote ++ ". Must be one of (-10, -5, 0, 5, 10)."),
            [.identityGetSelf])
  else
    (.error ("Failed to vote on pull request: "
        ++ "Azure DevOps PAT or organization URL not found in environment variables."), [])

/-- `common.py` lines 268-306 (`AzureDevOpsClient.set_vote`): resolve the
connection, fetch the caller identity via `get_self` (a network call), then
issue the reviewer update directly — this legacy path performs no vote
validation at all. -/
def client_set_vote (connectionOk : Bool) (remote : Remote)
    (pull_request_id : Nat) (vote : Int) :
    Except String Identity × List Call :=
  if connectionOk then
    match remote.getSelf with
    | .error e => (.error ("Failed to set vote: " ++ e), [.identityGetSelf])
    | .ok self_identity =>
        match remote.createReviewer self_identity.id vote with
        | .error e =>
            (.error ("Failed to set vote: " ++ e),
              [.identityGetSelf, .createPullRequestReviewer self_identity.id vote])
        | .ok r =>
            (.ok r,
              [.identityGetSelf, .createPullRequestReviewer self_identity.id vote])
  else
    (.error ("Failed to set vote: "
        ++ "Azure DevOps PAT or organization URL not found in environment variables."), [])

/-- `tools/update.py` line 169: the allowed merge strategies. -/
def validStrategies : List String := ["squash", "rebase", "rebaseMerge", "merge"]

/-- `tools/update.py` lines 182-193: the update payload built by the tools
completion path — `status = "completed"` plus ad hoc attributes
`merge_strategy` / `delete_source_branch` / `merge_commit_message`, each set
only when its argument is truthy. -/
def completePayloadTools (pr : GitPullRequest) (merge_strategy : String)
    (delete_source_branch : Bool) (merge_commit_message : Option String) :
    GitPullRequest :=
  let pr := { pr with status := "completed" }
  let pr := if merge_strategy ≠ "" then { pr with merge_strategy := some merge_strategy } else pr
  let pr := if delete_source_branch then { pr with delete_source_branch := some true } else pr
  match merge_commit_message with
  | some m => if m ≠ "" then { pr with merge_commit_message := some m } else pr
  | none => pr

/-- `tools/update.py` lines 143-215 (`_complete_pull_request_impl`): validate
the merge strategy, read the PR, set the completion attributes, write it
back.  The success value is elided formatting as before. -/
def complete_pull_request_impl (remote : Remote) (pull_request_id : Nat)
    (merge_strategy : String) (delete_source_branch : Bool)
    (merge_commit_message : Option String) :
    Except String GitPullRequest × List Call :=
  if merge_strategy ∈ validStrategies then
    match remote.getPullRequest pull_request_id with
    | .error e =>
        (.error ("Failed to complete pull request: " ++ e), [.getPullRequest pull_request_id])
    | .ok pr =>
        let payload := completePayloadTools pr merge_strategy delete_source_branch
            merge_commit_message
        match remote.updatePullRequest pull_request_id payload with
        | .error e =>
            (.error ("Failed to complete pull request: " ++ e),
              [.getPullRequest pull_request_id, .updatePullRequest pull_request_id payload])
        | .ok r =>
            (.ok r,
              [.getPullRequest pull_request_id, .updatePullRequest pull_request_id payload])
  else
    (.error ("Failed to complete pull request: Invalid merge strategy: " ++ merge_strategy
        ++ ". Must be one of (squash, rebase, rebaseMerge, merge)."), [])

/-- `tools/update.py` lines 218-257 (`_abandon_pull_request_impl`): read the
PR, set status to `abandoned`, write it back. -/
def abandon_pull_request_impl (remote : Remote) (pull_request_id : Nat) :
    Except String GitPullRequest × List Call :=
  match remote.getPullRequest pull_request_id with
  | .error e =>
      (.error ("Failed to abandon pull request: " ++ e), [.getPullRequest pull_request_id])
  | .ok pr =>
      let payload := { pr with status := "abandoned" }
      match remote.updatePullRequest pull_request_id payload with
      | .error e =>
          (.error ("Failed to abandon pull request: " ++ e),
            [.getPullRequest pull_request_id, .updatePullRequest pull_request_id payload])
      | .ok r =>
          (.ok r,
            [.getPullRequest pull_request_id, .updatePullRequest pull_request_id payload])

/-- `tools/update.py` lines 260-299 (`_reactivate_pull_request_impl`): read
the PR, set status to `active` unconditionally, write it back.  There is no
guard on the current status. -/
def reactivate_pull_request_impl (remote : Remote) (pull_request_id : Nat) :
    Except String GitPullRequest × List Call :=
  match remote.getPullRequest pull_request_id with
  | .error e =>
      (.error ("Failed to reactivate pull request: " ++ e), [.getPullRequest pull_request_id])
  | .ok pr =>
      let payload := { pr with status := "active" }
      match remote.updatePullRequest pull_request_id payload with
      | .error e =>
          (.error ("Failed to reactivate pull request: " ++ e),
            [.getPullRequest pull_request_id, .updatePullRequest pull_request_id payload])
      | .ok r =>
          (.ok r,
            [.getPullRequest pull_request_id, .updatePullRequest pull_request_id payload])

/-- `common.py` lines 334-338: the update payload built by the legacy client
completion path — `status = "completed"` plus a nested `completion_options`
dict holding the merge strategy and the delete flag. -/
def completePayloadCommon (pr : GitPullRequest) (merge_strategy : String)
    (delete_source_branch : Bool) : GitPullRequest :=
  { pr with
    status := "completed"
    completion_options := some ⟨merge_strategy, delete_source_branch⟩ }

/-- `common.py` lines 308-350 (`AzureDevOpsClient.complete_pull_request`):
read the PR, set `status` and the nested `completion_options`, write it
back.  No merge-strategy validation is performed on this path. -/
def client_complete_pull_request (remote : Remote) (pull_request_id : Nat)
    (merge_strategy : String) (delete_source_branch : Bool) :
    Except String GitPullRequest × List Call :=
  match remote.getPullRequest pull_request_id with
  | .error e =>
      (.error ("Failed to complete pull request: " ++ e), [.getPullRequest pull_request_id])
  | .ok pr =>
      let payload := completePayloadCommon pr merge_strategy delete_source_branch
      match remote.updatePullRequest pull_request_id payload with
      | .error e =>
          (.error ("Failed to complete pull request: " ++ e),
            [.getPullRequest pull_request_id, .updatePullRequest pull_request_id payload])
      | .ok r =>
          (.ok r,
            [.getPullRequest pull_request_id, .updatePullRequest pull_request_id payload])

/-- The environment-like configuration store: the two keys the connection
logic reads (`AZURE_DEVOPS_ORGANIZATION_URL`, `AZURE_DEVOPS_PAT`); `none`
models an unset variable. -/
structure Config where
  organization_url : Option String
  pat : Option String
  deriving DecidableEq, Repr

/-- A resolved connection: the credentials threaded into every client. -/
structure Connection where
  organization_url : String
  pat : String
  deriving DecidableEq, Repr

/-- Modelled from the spec: `get_connection` (imported from
`mcp_azure_devops.utils.azure_client`, a module absent from `src/`) resolves
the organization URL and access token from configuration and yields no
connection when either is missing or empty; it performs no network access
(spec sections 4.1 and 6). -/
def get_connection (cfg : Config) : Option Connection :=
  match cfg.organization_url, cfg.pat with
  | some url, some pat =>
      if url = "" ∨ pat = "" then none else some ⟨url, pat⟩
  | _, _ => none

/-- Whether the configuration is missing or empty in the organization URL or
the access token — exactly when `get_connection` fails. -/
def configIncomplete (cfg : Config) : Bool :=
  cfg.organization_url.getD "" = "" || cfg.pat.getD "" = ""

/-- `common.py` lines 24-48 (`get_pull_request_client`): resolve the
connection and hand out the git client; raises when the connection is
absent.  SDK client construction issues no network call, so the call trace
is empty on both paths. -/
def get_pull_request_client (cfg : Config) : Except String Connection × List Call :=
  match get_connection cfg with
  | none =>
      (.error "Azure DevOps PAT or organization URL not found in environment variables.", [])
  | some connection => (.ok connection, [])

/-- The update dict assembled at `tools.py` lines 106-112: only the keys
`title`, `description`, `status` can occur, each present exactly when the
corresponding argument was supplied. -/
structure UpdateData where
  title : Option String
  description : Option String
  status : Option String
  deriving DecidableEq, Repr

/-- Python `if not update_data:` at `tools.py` line 114 — the dict is empty
iff none of the three fields was supplied. -/
def UpdateData.isEmpty (u : UpdateData) : Bool :=
  u.title.isNone && u.description.isNone && u.status.isNone

/-- `common.py` lines 136-138: `setattr` of each update key on the fetched
PR object. -/
def applyUpdateData (pr : GitPullRequest) (u : UpdateData) : GitPullRequest :=
  let pr := match u.title with | some t => { pr with title := t } | none => pr
  let pr := match u.description with | some d => { pr with description := d } | none => pr
  match u.status with | some s => { pr with status := s } | none => pr

/-- `common.py` lines 113-150 (`AzureDevOpsClient.update_pull_request`): read
the PR, apply the update dict, write it back. -/
def client_update_pull_request (remote : Remote) (pull_request_id : Nat)
    (update_data : UpdateData) :
    Except String GitPullRequest × List Call :=
  match remote.getPullRequest pull_request_id with
  | .error e =>
      (.error ("Failed to update pull request: " ++ e), [.getPullRequest pull_request_id])
  | .ok existing_pr =>
      let payload := applyUpdateData existing_pr update_data
      match remote.updatePullRequest pull_request_id payload with
      | .error e =>
          (.error ("Failed to update pull request: " ++ e),
            [.getPullRequest pull_request_id, .updatePullRequest pull_request_id payload])
      | .ok r =>
          (.ok r,
            [.getPullRequest pull_request_id, .updatePullRequest pull_request_id payload])

/-- `tools.py` lines 86-125 (the flat `_update_pull_request_impl`): assemble
the update dict from the supplied optional arguments; when it is empty
return the error without touching the client; otherwise delegate to
`AzureDevOpsClient.update_pull_request`.  (The tool layer renders the error
as the string `"Error: No update parameters provided"`.) -/
def flat_update_pull_request_impl (remote : Remote) (pull_request_id : Nat)
    (title description status : Option String) :
    Except String GitPullRequest × List Call :=
  let update_data : UpdateData := ⟨title, description, status⟩
  if update_data.isEmpty then
    (.error "No update parameters provided", [])
  else
    client_update_pull_request remote pull_request_id update_data

/-- Character-level model of Python `str.strip()`: drop leading and trailing
whitespace. -/
def pyStrip (s : String) : String :=
  String.mk (((s.toList.dropWhile Char.isWhitespace).reverse.dropWhile
    Char.isWhitespace).reverse)

/-- Digit run with optional single underscores between digits, as accepted by
Python `int` after the optional sign. -/
def parseDigitsCore : Nat → List Char → Option Nat
  | acc, [] => some acc
  | acc, '_' :: c :: rest =>
      if c.isDigit then parseDigitsCore (acc * 10 + (c.toNat - 48)) rest else none
  | acc, c :: rest =>
      if c.isDigit then parseDigitsCore (acc * 10 + (c.toNat - 48)) rest else none

/-- Nonempty digit run; a leading underscore is rejected. -/
def parseDigits : List Char → Option Nat
  | [] => none
  | '_' :: _ => none
  | c :: rest =>
      if c.isDigit then parseDigitsCore (c.toNat - 48) rest else none

/-- Model of Python `int(s)` on a string: strip whitespace, optional sign,
then a digit run; anything else raises `ValueError` (`none`). -/
def pyInt (s : String) : Option Int :=
  match (pyStrip s).toList with
  | '+' :: rest => (parseDigits rest).map Int.ofNat
  | '-' :: rest => (parseDigits rest).map (fun n => -(Int.ofNat n))
  | cs => (parseDigits cs).map Int.ofNat

/-- Character-level model of Python `s.split(",")`: splitting never returns
an empty list — an empty string yields `[""]`. -/
def splitOnCommaAux : List Char → List Char → List String
  | [], acc => [String.mk acc.reverse]
  | ',' :: rest, acc => String.mk acc.reverse :: splitOnCommaAux rest []
  | c :: rest, acc => splitOnCommaAux rest (c :: acc)

/-- Python `work_item_ids.split(",")` as used at `tools/work_items.py`
line 222. -/
def splitOnComma (s : String) : List String :=
  splitOnCommaAux s.toList []

/-- `tools/work_items.py` line 222: `[int(id.strip()) for id in
work_item_ids.split(",")]` — `none` models the `ValueError` branch. -/
def parseWorkItemIds (s : String) : Option (List Int) :=
  (splitOnComma s).mapM (fun t => pyInt (pyStrip t))

/-- `tools/work_items.py` lines 94-147
(`_add_work_items_to_pull_request_impl`): read the PR, look the work items
up with `error_policy="omit"`, then link each surviving id with one call. -/
def add_work_items_to_pull_request_impl (remote : Remote) (pull_request_id : Nat)
    (work_item_ids : List Int) :
    Except String String × List Call :=
  match remote.getPullRequest pull_request_id with
  | .error e =>
      (.error ("Failed to link work items to pull request: " ++ e),
        [.getPullRequest pull_request_id])
  | .ok _ =>
      match remote.getWorkItems work_item_ids with
      | .error e =>
          (.error ("Failed to link work items to pull request: " ++ e),
            [.getPullRequest pull_request_id, .getWorkItems work_item_ids])
      | .ok valid_work_items =>
          if valid_work_items.isEmpty then
            (.ok "None of the provided work item IDs could be found.",
              [.getPullRequest pull_request_id, .getWorkItems work_item_ids])
          else
            (.ok "Successfully linked work items.",
              [.getPullRequest pull_request_id, .getWorkItems work_item_ids]
                ++ valid_work_items.map (fun i => .createPullRequestWorkItems [i]))

/-- `tools/work_items.py` lines 217-237 (the registered
`add_work_items_to_pull_request` tool): acquire the git client, parse the
comma-separated id list, reject malformed or empty input, and only then call
the linking implementation. -/
def add_work_items_to_pull_request_tool (cfg : Config) (remote : Remote)
    (pull_request_id : Nat) (work_item_ids : String) :
    Except String String × List Call :=
  match get_connection cfg with
  | none =>
      (.error "Azure DevOps PAT or organization URL not found in environment variables.", [])
  | some _ =>
      match parseWorkItemIds work_item_ids with
      | none =>
          (.error "Work item IDs must be valid integers separated by commas.", [])
      | some work_item_id_list =>
          if work_item_id_list.isEmpty then
            (.error "No valid work item IDs provided.", [])
          else
            add_work_items_to_pull_request_impl remote pull_request_id work_item_id_list

/-- The error taxonomy of the spec's Response Normalizer (spec section 4.4 /
section 7), restricted to the status-code classification. -/
inductive ErrorKind where
  | AuthorizationError
  | NotFoundError
  | ConflictError
  | RequestError
  | RemoteServiceError
  deriving DecidableEq, Repr

/-- Outcome of classifying a status code: success, a classified error, or a
status code the specified mapping gives no bucket for. -/
inductive NormalizedOutcome where
  | Success
  | Failure (kind : ErrorKind)
  | Unclassified
  deriving DecidableEq, Repr

/-- Modelled from the spec: the Response Normalizer's status-code mapping
(spec section 4.4; the hand-rolled REST client is absent from `src/`):
200-299 succeed; 401/403, 404, 409, other 4xx, and 5xx map to their
`ErrorKind`; status codes the spec's mapping does not mention (1xx, 3xx)
fall into no bucket. -/
def normalizeStatus (status : Nat) : NormalizedOutcome :=
  if 200 ≤ status ∧ status ≤ 299 then .Success
  else if status = 401 ∨ status = 403 then .Failure .AuthorizationError
  else if status = 404 then .Failure .NotFoundError
  else if status = 409 then .Failure .ConflictError
  else if 400 ≤ status ∧ status ≤ 499 then .Failure .RequestError
  else if 500 ≤ status ∧ status ≤ 599 then .Failure .RemoteServiceError
  else .Unclassified

/-! ## Concrete fixtures used by witnesses and counterexamples -/

/-- A fetched pull request whose current status is `completed`; as on a real
fetched object, the ad hoc completion attributes are absent. -/
def prCompleted : GitPullRequest :=
  { title := "t"
    description := "d"
    status := "completed"
    source_ref_name := "refs/heads/feature/x"
    target_ref_name := "refs/heads/main" }

/-- A remote on which every call succeeds; `getPullRequest` always returns
`prCompleted`. -/
def remoteStub : Remote :=
  { getPullRequest := fun _ => .ok prCompleted
    updatePullRequest := fun _ payload => .ok payload
    createPullRequest := fun payload => .ok payload
    getSelf := .ok ⟨"id-1", "User One"⟩
    createReviewer := fun i _ => .ok ⟨i, "User One"⟩
    getWorkItems := fun ids => .ok ids
    createPullRequestWorkItems := fun _ => .ok () }

/-- A remote whose `getPullRequest` read always fails. -/
def remoteReadFail : Remote :=
  { remoteStub with getPullRequest := fun _ => .error "boom" }

/-! ## Helper lemmas -/

/-- Anything built by prefixing with `refs/heads/` starts with `refs/`. -/
theorem strStartsWith_refsHeads_append (x : String) :
    strStartsWith ("refs/heads/" ++ x) "refs/" = true := rfl

/-- The tools completion path never touches the nested `completion_options`
field of the fetched object. -/
theorem completePayloadTools_completion_options (pr : GitPullRequest)
    (ms : String) (dsb : Bool) (mcm : Option String) :
    (completePayloadTools pr ms dsb mcm).completion_options = pr.completion_options := by
  unfold completePayloadTools
  cases mcm <;> dsimp only <;> split_ifs <;> rfl

/-! ## Claims -/

/-- C1 counterexample: the legacy client paths cited by the claim
(`common.py` lines 89 and 182) prefix unconditionally, so a branch name that
already carries the fully-qualified `refs/heads/` form is not left
unchanged, and applying the normalization twice differs from applying it
once. -/
theorem C1_counterexample :
    clientSourceRefName "refs/heads/main" ≠ "refs/heads/main" ∧
    targetRefFilter (targetRefFilter "main") ≠ targetRefFilter "main" := by
  constructor <;> decide

/-- C1 amended: the conditional normalization of the reorganized tools
(`tools/create.py` lines 44-46 for pull-request creation, `tools/read.py`
line 84 for the target-branch filter of listing) leaves an already-qualified
name unchanged and is idempotent; the legacy `common.py` paths prefix
unconditionally and lack both properties. -/
theorem C1_amended_normalization_idempotent (x : String) :
    normalizeRef (normalizeRef x) = normalizeRef x ∧
    (strStartsWith x "refs/" = true → normalizeRef x = x) ∧
    readTargetRefFilter (readTargetRefFilter x) = readTargetRefFilter x ∧
    (strStartsWith x "refs/" = true → readTargetRefFilter x = x) := by
  refine ⟨?_, ?_, ?_, ?_⟩
  · unfold normalizeRef
    by_cases h : strStartsWith x "refs/" = true
    · simp [h]
    · simp [h, strStartsWith_refsHeads_append]
  · intro h; simp [normalizeRef, h]
  · unfold readTargetRefFilter
    by_cases h : strStartsWith x "refs/" = true
    · simp [h]
    · simp [h, strStartsWith_refsHeads_append]
  · intro h; simp [readTargetRefFilter, h]

/-- C1 witness: the amended statement evaluated at a fresh and at an
already-qualified branch name. -/
theorem C1_amended_witness :
    normalizeRef (normalizeRef "main") = normalizeRef "main" ∧
    normalizeRef "refs/heads/main" = "refs/heads/main" :=
  ⟨(C1_amended_normalization_idempotent "main").1,
    (C1_amended_normalization_idempotent "refs/heads/main").2.1 (by decide)⟩

/-- C5: building the create-pull-request body with `source_branch =
"feature/x"` and `target_branch = "main"` yields `sourceRefName =
"refs/heads/feature/x"` and `targetRefName = "refs/heads/main"`, on the
reorganized tools path and on the legacy client path alike, and the
creation call carries exactly that body. -/
theorem C5_create_request_refs (remote : Remote) (title description : String)
    (reviewers : List String) :
    (buildCreatePullRequest title "feature/x" "main" description reviewers).source_ref_name
      = "refs/heads/feature/x" ∧
    (buildCreatePullRequest title "feature/x" "main" description reviewers).target_ref_name
      = "refs/heads/main" ∧
    (create_pull_request_impl remote title "feature/x" "main" description reviewers).2
      = [Call.createPullRequest
          (buildCreatePullRequest title "feature/x" "main" description reviewers)] ∧
    clientSourceRefName "feature/x" = "refs/heads/feature/x" ∧
    clientTargetRefName "main" = "refs/heads/main" := by
  refine ⟨rfl, rfl, ?_, rfl, rfl⟩
  unfold create_pull_request_impl
  cases h : remote.createPullRequest
      (buildCreatePullRequest title "feature/x" "main" description reviewers) <;> simp [h]

/-- C10: invoking the flat update implementation (`tools.py` lines 106-115)
with neither title nor description nor status returns the no-parameters
error and issues no network call at all. -/
theorem C10_noop_update_no_network (remote : Remote) (pull_request_id : Nat) :
    flat_update_pull_request_impl remote pull_request_id none none none
      = (.error "No update parameters provided", []) := rfl

/-- C2 counterexample: with the out-of-range vote 7 on a remote whose calls
succeed, the tools voting path rejects only after the `get_self` identity
network call has been issued (the trace before the rejection is not empty),
and the legacy `AzureDevOpsClient.set_vote` path does not reject at all: it
issues the reviewer-update Transport call with vote 7 and succeeds. -/
theorem C2_counterexample :
    vote_on_pull_request_impl true remoteStub 1 7
      = (.error ("Failed to vote on pull request: Invalid vote value: 7"
          ++ ". Must be one of (-10, -5, 0, 5, 10)."), [Call.identityGetSelf]) ∧
    ([Call.identityGetSelf] : List Call) ≠ [] ∧
    client_set_vote true remoteStub 1 7
      = (.ok ⟨"id-1", "User One"⟩,
         [Call.identityGetSelf, Call.createPullRequestReviewer "id-1" 7]) :=
  ⟨rfl, by decide, rfl⟩

/-- C2 amended: on the tools voting path (`_vote_on_pull_request_impl`,
reached by approve and reject), a vote value outside {-10, -5, 0, 5, 10} is
rejected with a validation error before the reviewer-update Transport call
(no `create_pull_request_reviewer` call is issued), though after the
identity lookup network call `get_self` has already been made; on the legacy
`AzureDevOpsClient.set_vote` path (`common.py` 268-306) no vote validation
is performed and the reviewer-update Transport call is issued even for an
out-of-range vote. -/
theorem C2_amended_vote_validation_per_path (remote : Remote)
    (pull_request_id : Nat) (vote : Int) (ident : Identity)
    (hself : remote.getSelf = .ok ident) (hvote : vote ∉ validVotes) :
    vote_on_pull_request_impl true remote pull_request_id vote
      = (.error ("Failed to vote on pull request: Invalid vote value: "
          ++ toString vote ++ ". Must be one of (-10, -5, 0, 5, 10)."),
        [Call.identityGetSelf]) ∧
    (client_set_vote true remote pull_request_id vote).2
      = [Call.identityGetSelf, Call.createPullRequestReviewer ident.id vote] := by
  constructor
  · unfold vote_on_pull_request_impl
    rw [hself]
    simp [hvote]
  · unfold client_set_vote
    rw [hself]
    cases h : remote.createReviewer ident.id vote <;> simp [h]

/-- C2 witness: the amended statement at vote value 7 on the all-succeeding
remote. -/
theorem C2_amended_witness :
    (vote_on_pull_request_impl true remoteStub 1 7
      = (.error ("Failed to vote on pull request: Invalid vote value: "
          ++ toString (7 : Int) ++ ". Must be one of (-10, -5, 0, 5, 10)."),
        [Call.identityGetSelf])) ∧
    (client_set_vote true remoteStub 1 7).2
      = [Call.identityGetSelf, Call.createPullRequestReviewer "id-1" 7] :=
  C2_amended_vote_validation_per_path remoteStub 1 7 ⟨"id-1", "User One"⟩
    rfl (by decide)

/-- C3 counterexample: on a remote whose fetched pull request has status
`completed`, requesting the transition to `active` (via update and via
reactivate) is not rejected client-side: both the read and the write network
calls are issued and the operation succeeds. -/
theorem C3_counterexample :
    prCompleted.status = "completed" ∧
    update_pull_request_impl remoteStub 1 none none (some "active")
      = (.ok { prCompleted with status := "active" },
         [Call.getPullRequest 1,
          Call.updatePullRequest 1 { prCompleted with status := "active" }]) ∧
    (reactivate_pull_request_impl remoteStub 1).2
      = [Call.getPullRequest 1,
         Call.updatePullRequest 1 { prCompleted with status := "active" }] :=
  ⟨rfl, rfl, rfl⟩

/-- C3 amended: the code has no client-side terminal-state guard.  Whenever
the fetched pull request has status `completed`, both the update operation
requesting status `active` and the reactivate operation issue the read and
then the write network call, forwarding the transition to the server; the
only client-side status validation (in update) merely rejects status strings
outside {active, abandoned, completed}, and it runs after the read. -/
theorem C3_amended_no_terminal_guard (remote : Remote) (pull_request_id : Nat)
    (pr : GitPullRequest) (hread : remote.getPullRequest pull_request_id = .ok pr)
    (hdone : pr.status = "completed") :
    (update_pull_request_impl remote pull_request_id none none (some "active")).2
      = [Call.getPullRequest pull_request_id,
         Call.updatePullRequest pull_request_id { pr with status := "active" }] ∧
    (reactivate_pull_request_impl remote pull_request_id).2
      = [Call.getPullRequest pull_request_id,
         Call.updatePullRequest pull_request_id { pr with status := "active" }] := by
  constructor
  · unfold update_pull_request_impl
    rw [hread]
    have hv : statusIsInvalid ((some "active").getD "") = false := by decide
    simp only [hv, Bool.false_eq_true, if_false]
    cases h : remote.updatePullRequest pull_request_id
        (applyUpdateFields pr none none (some "active")) <;>
      simp [applyUpdateFields] at h ⊢ <;> simp [h]
  · unfold reactivate_pull_request_impl
    rw [hread]
    cases h : remote.updatePullRequest pull_request_id { pr with status := "active" } <;>
      simp [h]

/-- C3 witness: the amended statement on the all-succeeding remote whose
fetched pull request is completed. -/
theorem C3_amended_witness :
    (update_pull_request_impl remoteStub 1 none none (some "active")).2
      = [Call.getPullRequest 1,
         Call.updatePullRequest 1 { prCompleted with status := "active" }] ∧
    (reactivate_pull_request_impl remoteStub 1).2
      = [Call.getPullRequest 1,
         Call.updatePullRequest 1 { prCompleted with status := "active" }] :=
  C3_amended_no_terminal_guard remoteStub 1 prCompleted rfl rfl

/-- C4: for every read-then-write composite operation (both completion
paths, abandon, reactivate, and both update paths), when the initial read
fails the only network call in the trace is that read — the write is never
issued — and the read failure is surfaced to the caller as the returned
error. -/
theorem C4_read_failure_no_write (remote : Remote) (pull_request_id : Nat)
    (e ms : String) (dsb : Bool) (mcm : Option String)
    (title description status : Option String) (ud : UpdateData)
    (hread : remote.getPullRequest pull_request_id = .error e)
    (hms : ms ∈ validStrategies) :
    client_complete_pull_request remote pull_request_id ms dsb
      = (.error ("Failed to complete pull request: " ++ e),
         [Call.getPullRequest pull_request_id]) ∧
    complete_pull_request_impl remote pull_request_id ms dsb mcm
      = (.error ("Failed to complete pull request: " ++ e),
         [Call.getPullRequest pull_request_id]) ∧
    abandon_pull_request_impl remote pull_request_id
      = (.error ("Failed to abandon pull request: " ++ e),
         [Call.getPullRequest pull_request_id]) ∧
    reactivate_pull_request_impl remote pull_request_id
      = (.error ("Failed to reactivate pull request: " ++ e),
         [Call.getPullRequest pull_request_id]) ∧
    update_pull_request_impl remote pull_request_id title description status
      = (.error ("Failed to update pull request: " ++ e),
         [Call.getPullRequest pull_request_id]) ∧
    client_update_pull_request remote pull_request_id ud
      = (.error ("Failed to update pull request: " ++ e),
         [Call.getPullRequest pull_request_id]) := by
  refine ⟨?_, ?_, ?_, ?_, ?_, ?_⟩ <;>
    simp [client_complete_pull_request, complete_pull_request_impl,
      abandon_pull_request_impl, reactivate_pull_request_impl,
      update_pull_request_impl, client_update_pull_request, hread, hms]

/-- C4 witness: the read-failure behavior on a remote whose read fails with
message `boom`. -/
theorem C4_witness :
    client_complete_pull_request remoteReadFail 1 "squash" false
      = (.error "Failed to complete pull request: boom", [Call.getPullRequest 1]) ∧
    abandon_pull_request_impl remoteReadFail 1
      = (.error "Failed to abandon pull request: boom", [Call.getPullRequest 1]) := by
  have h := C4_read_failure_no_write remoteReadFail 1 "boom" "squash" false none
    none none none ⟨none, none, none⟩ rfl (by decide)
  exact ⟨h.1, h.2.2.1⟩

/-- C6: whenever the organization URL or the access token is missing or
empty, client acquisition fails with the configuration error, and credential
resolution issues no network call for any configuration whatsoever. -/
theorem C6_missing_config_no_network (cfg : Config)
    (h : configIncomplete cfg = true) :
    get_pull_request_client cfg
      = (.error "Azure DevOps PAT or organization URL not found in environment variables.",
         []) ∧
    ∀ cfg2 : Config, (get_pull_request_client cfg2).2 = [] := by
  constructor
  · rcases cfg with ⟨ou, pat⟩
    unfold get_pull_request_client get_connection
    cases ou <;> cases pat <;>
      simp_all [configIncomplete] <;> split_ifs <;> simp_all
  · intro cfg2
    unfold get_pull_request_client
    cases h2 : get_connection cfg2 <;> simp

/-- C6 witness: a configuration with the access token unset. -/
theorem C6_witness :
    get_pull_request_client ⟨some "https://dev.azure.com/org", none⟩
      = (.error "Azure DevOps PAT or organization URL not found in environment variables.",
         []) :=
  (C6_missing_config_no_network ⟨some "https://dev.azure.com/org", none⟩ (by decide)).1

/-- C7: when the comma-separated work-item-id argument fails to parse (empty
input or a non-integer entry) or parses to an empty list, the linking tool
returns a validation error and issues zero network calls. -/
theorem C7_invalid_work_item_ids_no_network (cfg : Config) (remote : Remote)
    (pull_request_id : Nat) (s : String)
    (h : parseWorkItemIds s = none ∨ parseWorkItemIds s = some []) :
    (add_work_items_to_pull_request_tool cfg remote pull_request_id s).2 = [] ∧
    ∃ msg, (add_work_items_to_pull_request_tool cfg remote pull_request_id s).1
      = .error msg := by
  rcases h with h | h <;>
    cases hc : get_connection cfg <;>
      simp [add_work_items_to_pull_request_tool, hc, h]

/-- C7 witness: a malformed entry (`"1,abc"`) on a complete configuration
and an all-succeeding remote. -/
theorem C7_witness :
    (add_work_items_to_pull_request_tool ⟨some "https://dev.azure.com/org", some "secret"⟩
        remoteStub 1 "1,abc").2 = [] ∧
    ∃ msg, (add_work_items_to_pull_request_tool
        ⟨some "https://dev.azure.com/org", some "secret"⟩ remoteStub 1 "1,abc").1
      = .error msg :=
  C7_invalid_work_item_ids_no_network ⟨some "https://dev.azure.com/org", some "secret"⟩
    remoteStub 1 "1,abc" (Or.inl (by decide))

/-- C8 counterexample: the classification the spec prescribes assigns no
`ErrorKind` to the redirect code 300 or the informational code 101, both of
which lie outside [200,299] — the mapping is not total over status codes. -/
theorem C8_counterexample :
    normalizeStatus 300 = NormalizedOutcome.Unclassified ∧
    normalizeStatus 101 = NormalizedOutcome.Unclassified ∧
    NormalizedOutcome.Unclassified ≠ NormalizedOutcome.Success ∧
    NormalizedOutcome.Unclassified ≠ NormalizedOutcome.Failure ErrorKind.RequestError := by
  refine ⟨rfl, rfl, by decide, by decide⟩

/-- C8 amended: a status code maps to `Success` exactly when it lies in
[200,299]; every status code in [400,599] maps to exactly one `ErrorKind`
(401/403 to authorization, 404 to not-found, 409 to conflict, the remaining
4xx to request errors, 5xx to remote-service errors); codes in the 1xx and
3xx ranges are left unclassified by the specified mapping. -/
theorem C8_amended_status_classification (s : Nat) :
    (normalizeStatus s = NormalizedOutcome.Success ↔ 200 ≤ s ∧ s ≤ 299) ∧
    (400 ≤ s ∧ s ≤ 599 → ∃ k, normalizeStatus s = NormalizedOutcome.Failure k) ∧
    ((s = 401 ∨ s = 403) →
      normalizeStatus s = NormalizedOutcome.Failure ErrorKind.AuthorizationError) ∧
    (s = 404 → normalizeStatus s = NormalizedOutcome.Failure ErrorKind.NotFoundError) ∧
    (s = 409 → normalizeStatus s = NormalizedOutcome.Failure ErrorKind.ConflictError) ∧
    (400 ≤ s ∧ s ≤ 499 ∧ s ≠ 401 ∧ s ≠ 403 ∧ s ≠ 404 ∧ s ≠ 409 →
      normalizeStatus s = NormalizedOutcome.Failure ErrorKind.RequestError) ∧
    (500 ≤ s ∧ s ≤ 599 →
      normalizeStatus s = NormalizedOutcome.Failure ErrorKind.RemoteServiceError) := by
  unfold normalizeStatus
  refine ⟨?_, ?_, ?_, ?_, ?_, ?_, ?_⟩ <;>
    split_ifs <;> simp_all <;> omega

/-- C8 witness: the amended classification at representative codes from each
covered range. -/
theorem C8_amended_witness :
    normalizeStatus 204 = NormalizedOutcome.Success ∧
    normalizeStatus 404 = NormalizedOutcome.Failure ErrorKind.NotFoundError ∧
    normalizeStatus 418 = NormalizedOutcome.Failure ErrorKind.RequestError ∧
    normalizeStatus 503 = NormalizedOutcome.Failure ErrorKind.RemoteServiceError :=
  ⟨(C8_amended_status_classification 204).1.mpr (by omega),
   (C8_amended_status_classification 404).2.2.2.1 rfl,
   (C8_amended_status_classification 418).2.2.2.2.2.1 (by omega),
   (C8_amended_status_classification 503).2.2.2.2.2.2 (by omega)⟩

/-- C9: for the same inputs, the legacy completion path (nested
`completion_options` on the fetched object, `common.py` 334-338) and the
tools completion path (ad hoc top-level attributes, `tools/update.py`
182-193) put different update payloads on the wire: each issues read then
write, and the two write payloads are never equal when the fetched object
carries no leftover completion options. -/
theorem C9_completion_payloads_differ (remote : Remote) (pull_request_id : Nat)
    (pr : GitPullRequest) (ms : String) (dsb : Bool) (mcm : Option String)
    (hread : remote.getPullRequest pull_request_id = .ok pr)
    (hms : ms ∈ validStrategies)
    (hfresh : pr.completion_options = none) :
    (client_complete_pull_request remote pull_request_id ms dsb).2
      = [Call.getPullRequest pull_request_id,
         Call.updatePullRequest pull_request_id (completePayloadCommon pr ms dsb)] ∧
    (complete_pull_request_impl remote pull_request_id ms dsb mcm).2
      = [Call.getPullRequest pull_request_id,
         Call.updatePullRequest pull_request_id (completePayloadTools pr ms dsb mcm)] ∧
    completePayloadCommon pr ms dsb ≠ completePayloadTools pr ms dsb mcm := by
  refine ⟨?_, ?_, ?_⟩
  · unfold client_complete_pull_request
    rw [hread]
    cases h : remote.updatePullRequest pull_request_id (completePayloadCommon pr ms dsb) <;>
      simp [h]
  · unfold complete_pull_request_impl
    rw [if_pos hms, hread]
    cases h : remote.updatePullRequest pull_request_id
        (completePayloadTools pr ms dsb mcm) <;> simp [h]
  · intro heq
    have h2 := completePayloadTools_completion_options pr ms dsb mcm
    rw [← heq, hfresh] at h2
    have h1 : (completePayloadCommon pr ms dsb).completion_options
        = some ⟨ms, dsb⟩ := rfl
    rw [h1] at h2
    exact Option.noConfusion h2

/-- C9 witness: the two payloads at merge strategy `squash` without branch
deletion, on the all-succeeding remote. -/
theorem C9_witness :
    completePayloadCommon prCompleted "squash" false
      ≠ completePayloadTools prCompleted "squash" false none :=
  (C9_completion_payloads_differ remoteStub 1 prCompleted "squash" false none
    rfl (by decide) rfl).2.2

end McpAzureDevOps
